import Mathlib

/-!
Verification of the polling / dedup / recovery loop of `src/monitor.py`.

The embedding models the core orchestration of the monitor script:
history store (`load_history` / `save_history`), channel scanner
(`get_latest_video`), media fetcher (`download_audio_if_not_exists`),
notifier (`send_line`), the per-video pipeline and the outer loop of the
`__main__` block.  External collaborators (yt_dlp, the AI model, the
messaging API, the filesystem) are modelled by explicit outcome values
passed in as parameters; the state threaded through the loop is the
history file, the set of artifact files on disk and the per-iteration
rate-limit flag.  An event trace records the observable actions
(fetch, analyze, notify, history append, artifact removal, skip,
cooldown signal).
-/

/-! ### String helpers (Python truthiness, `in`, `startswith`, `strip`) -/

/-- Boolean test that the list `pat` is a leading segment of the second list. -/
def listStartsWith : List Char → List Char → Bool
  | [], _ => true
  | _ :: _, [] => false
  | a :: as, b :: bs => a == b && listStartsWith as bs

/-- Boolean test that `pat` occurs contiguously somewhere in the second list;
models the Python substring operator used on error messages. -/
def listContainsSub (pat : List Char) : List Char → Bool
  | [] => listStartsWith pat []
  | b :: bs => listStartsWith pat (b :: bs) || listContainsSub pat bs

/-- Python `pat in s` substring test. -/
def strContains (s pat : String) : Bool :=
  listContainsSub pat.toList s.toList

/-- Python `s.startswith(pre)`. -/
def pyStartsWith (s pre : String) : Bool :=
  listStartsWith pre.toList s.toList

/-- Python truthiness of a string: nonempty. -/
def strTruthy (s : String) : Bool :=
  !s.toList.isEmpty

/-- Python `s.strip()`: drop whitespace from both ends. -/
def pyStrip (s : String) : String :=
  String.mk (((s.toList.dropWhile Char.isWhitespace).reverse.dropWhile
    Char.isWhitespace).reverse)

def emptyStr : String := ""

/-! ### Literals appearing in the source -/

def lit429 : String := "429"

def litResourceExhausted : String := "ResourceExhausted"

def lit403 : String := "403"

def litUC : String := "UC"

def watchUrl : String := "https://www.youtube.com/watch?v="

/-! ### History store: `load_history` / `save_history`.
The history file is `Option (List String)`: `none` when
`processed_videos.txt` does not exist, otherwise the list of its lines. -/

/-- `load_history()`: empty set when the file is absent, otherwise the
set of stripped lines (modelled as a list, used for membership only). -/
def load_history : Option (List String) → List String
  | none => []
  | some lines => lines.map pyStrip

/-- `save_history(video_id)`: append one line to the file (opening with
mode `a` creates the file when absent). -/
def save_history (file : Option (List String)) (video_id : String) :
    Option (List String) :=
  some (file.getD [] ++ [video_id])

/-! ### Channel scanner: `get_latest_video` -/

/-- One playlist entry as consumed by the scanner: the `id` and `title`
fields, each possibly missing. -/
structure VideoEntry where
  id : Option String
  title : Option String

/-- The filter applied to an entry inside the scanner loop:
`entry` truthy, `v_id` truthy, not a channel id (`UC` head), title truthy. -/
def entryQualifies (oe : Option VideoEntry) : Bool :=
  match oe with
  | none => false
  | some e =>
    match e.id, e.title with
    | some vid, some vtitle =>
      strTruthy vid && !(pyStartsWith vid litUC) && strTruthy vtitle
    | _, _ => false

/-- The `for entry in info entries` loop body: return on the first
qualifying entry, otherwise fall through. -/
def firstQualifying : List (Option VideoEntry) → Option (String × String)
  | [] => none
  | oe :: rest =>
    match oe with
    | none => firstQualifying rest
    | some e =>
      match e.id, e.title with
      | some vid, some vtitle =>
        if strTruthy vid && !(pyStartsWith vid litUC) && strTruthy vtitle
        then some (vid, vtitle)
        else firstQualifying rest
      | _, _ => firstQualifying rest

/-- The `playlistend` option passed to the extractor. -/
def playlistEnd : Nat := 5

/-- Flat extraction with `playlistend = 5`: the extractor yields at most
the first five playlist entries. -/
def extract_flat (playlist : List (Option VideoEntry)) :
    List (Option VideoEntry) :=
  playlist.take playlistEnd

/-- `get_latest_video`, given the outcome of `extract_info`:
`Except.error` models an exception during extraction (caught, logged);
`Except.ok none` models an info dict without an `entries` key;
otherwise scan the entries for the first qualifying one. -/
def get_latest_video
    (extraction : Except Unit (Option (List (Option VideoEntry)))) :
    Option String × Option String × Option String :=
  match extraction with
  | .error _ => (none, none, none)
  | .ok none => (none, none, none)
  | .ok (some entries) =>
    if entries.isEmpty then (none, none, none)
    else
      match firstQualifying entries with
      | some (vid, vtitle) => (some vid, some vtitle, some (watchUrl ++ vid))
      | none => (none, none, none)

/-- Successful scan of a channel whose full playlist is given:
extraction returns the first `playlistEnd` entries. -/
def scan_channel (playlist : List (Option VideoEntry)) :
    Option String × Option String × Option String :=
  get_latest_video (Except.ok (some (extract_flat playlist)))

/-! ### Media fetcher: `download_audio_if_not_exists` -/

def temp_m4a (video_id : String) : String :=
  "temp_" ++ video_id ++ ".m4a"

def temp_webm (video_id : String) : String :=
  "temp_" ++ video_id ++ ".webm"

/-- Outcome of the `ydl.download` call: it raises, or it creates some
files in the base directory. -/
inductive DownloadOutcome where
  | raises
  | produces (files : List String)

/-- `download_audio_if_not_exists(url, video_id)` over the current set of
files on disk `fs`.  Returns the resulting path (or `none`), the new set
of files, and whether a download was attempted. -/
def download_audio_if_not_exists (fs : List String) (out : DownloadOutcome)
    (_url video_id : String) : Option String × List String × Bool :=
  if temp_m4a video_id ∈ fs then (some (temp_m4a video_id), fs, false)
  else if temp_webm video_id ∈ fs then (some (temp_webm video_id), fs, false)
  else
    match out with
    | .raises => (none, fs, true)
    | .produces files =>
      if temp_m4a video_id ∈ fs ++ files then
        (some (temp_m4a video_id), fs ++ files, true)
      else if temp_webm video_id ∈ fs ++ files then
        (some (temp_webm video_id), fs ++ files, true)
      else (none, fs ++ files, true)

/-! ### Orchestrator state, events, failure classification -/

/-- Observable actions of one iteration. -/
inductive Event where
  | skipLogged (video_id : String)
  | fetchCall (video_id : String)
  | downloadRun (video_id : String)
  | analyzeCall (video_id : String)
  | notifyAttempt (msg : String)
  | notifyDelivered (msg : String)
  | notifyFailLogged (msg : String)
  | historyAppend (video_id : String)
  | artifactRemoved (path : String)
  | errorLogged (msg : String)
  | cooldownSignal
deriving DecidableEq

/-- Mutable state threaded through the loop: the history file, the files
on disk, and the per-iteration `api_limit_hit` flag. -/
structure St where
  historyFile : Option (List String)
  artifacts : List String
  apiLimitHit : Bool
deriving DecidableEq

/-- Identifiers recorded in the history file. -/
def historyIds (s : St) : List String :=
  s.historyFile.getD []

/-- Collaborator outcomes for one per-video pipeline run:
the download outcome, the result of `analyze_audio` (report text or the
text of the raised error), whether the LINE push raises internally, and
whether `os.remove` raises (with the error text). -/
structure VideoEnv where
  download : DownloadOutcome
  analysis : Except String String
  notifyFails : Bool
  removeErr : Option String

/-- The signature test of the except handler:
`"429" in err_msg or "ResourceExhausted" in err_msg or "403" in err_msg`. -/
def isRateLimitError (msg : String) : Bool :=
  strContains msg lit429 || strContains msg litResourceExhausted ||
    strContains msg lit403

/-- The except handler: log the error; on a rate-limit signature set the
`api_limit_hit` flag (signalling cooldown), otherwise leave state alone. -/
def classify_error (msg : String) (s : St) : St × List Event :=
  if isRateLimitError msg then
    ({ s with apiLimitHit := true }, [.errorLogged msg, .cooldownSignal])
  else
    (s, [.errorLogged msg])

/-- `send_line(msg)`: attempt the push; an exception from the API is
caught and logged inside the function, never propagated. -/
def send_line (notifyFails : Bool) (msg : String) : List Event :=
  if notifyFails then [.notifyAttempt msg, .notifyFailLogged msg]
  else [.notifyAttempt msg, .notifyDelivered msg]

/-- The per-video pipeline of the main loop, entered for a new video:
fetch; if an artifact resulted, build the report, analyze, notify,
commit to history and delete the artifact; any exception in the try
block goes through `classify_error`. -/
def process_new_video (env : VideoEnv) (vid _title url : String) (s : St) :
    St × List Event :=
  let dres := download_audio_if_not_exists s.artifacts env.download url vid
  let s1 : St := { s with artifacts := dres.2.1 }
  let evFetch :=
    if dres.2.2 then [Event.fetchCall vid, Event.downloadRun vid]
    else [Event.fetchCall vid]
  match dres.1 with
  | none => (s1, evFetch)
  | some audio =>
    match env.analysis with
    | .error msg =>
      let c := classify_error msg s1
      (c.1, evFetch ++ [Event.analyzeCall vid] ++ c.2)
    | .ok text =>
      let report := url ++ "\n\n" ++ text
      let evNotify := send_line env.notifyFails report
      let s2 : St := { s1 with historyFile := save_history s1.historyFile vid }
      if audio ∈ s2.artifacts then
        match env.removeErr with
        | none =>
          ({ s2 with artifacts := s2.artifacts.erase audio },
           evFetch ++ [Event.analyzeCall vid] ++ evNotify ++
             [Event.historyAppend vid, Event.artifactRemoved audio])
        | some rmsg =>
          let c := classify_error rmsg s2
          (c.1, evFetch ++ [Event.analyzeCall vid] ++ evNotify ++
            [Event.historyAppend vid] ++ c.2)
      else
        (s2, evFetch ++ [Event.analyzeCall vid] ++ evNotify ++
          [Event.historyAppend vid])

/-- Per-channel data for one iteration: the scan result and the
collaborator outcomes of a potential pipeline run. -/
structure ChannelEnv where
  scan : Option String × Option String × Option String
  video : VideoEnv

/-- The body of `for channel in TARGET_CHANNELS`: scan, dedup against
the loaded history set, and run the pipeline on a new video. -/
def handle_channel (history : List String) (c : ChannelEnv) (s : St) :
    St × List Event :=
  match c.scan with
  | (some vid, vtitle, vurl) =>
    if strTruthy vid then
      if vid ∈ history then (s, [Event.skipLogged vid])
      else process_new_video c.video vid (vtitle.getD emptyStr)
        (vurl.getD emptyStr) s
    else (s, [])
  | (none, _, _) => (s, [])

/-- Sequential scan of the configured channels. -/
def run_channels (history : List String) :
    List ChannelEnv → St → St × List Event
  | [], s => (s, [])
  | c :: cs, s =>
    let r := handle_channel history c s
    let rest := run_channels history cs r.1
    (rest.1, r.2 ++ rest.2)

def cooldownSeconds : Nat := 900

def pollSeconds : Nat := 60

/-- One outer iteration of the main loop: reload history, reset the
rate-limit flag, scan all channels, then choose the sleep interval.
Returns the final state, the seconds slept, and the event trace. -/
def run_iteration (channels : List ChannelEnv) (s : St) :
    St × Nat × List Event :=
  let history := load_history s.historyFile
  let s0 : St := { s with apiLimitHit := false }
  let r := run_channels history channels s0
  if r.1.apiLimitHit then (r.1, cooldownSeconds, r.2)
  else (r.1, pollSeconds, r.2)

/-! ### Concrete sample inputs used by witnesses and counterexamples -/

def vW : String := "v1"

def tW : String := "T"

def uW : String := "u"

def repW : String := "REPORT"

def msg429 : String := "429 RESOURCE_EXHAUSTED: quota"

def msgOther : String := "could not parse audio"

def msg403 : String := "PermissionError 403 on delete"

def stEmpty : St := ⟨none, [], false⟩

def envOk : VideoEnv := ⟨DownloadOutcome.produces [temp_m4a vW], Except.ok repW, false, none⟩

def envOkFailNotify : VideoEnv := ⟨DownloadOutcome.produces [temp_m4a vW], Except.ok repW, true, none⟩

def envErr429 : VideoEnv := ⟨DownloadOutcome.produces [temp_m4a vW], Except.error msg429, false, none⟩

def envErrOther : VideoEnv := ⟨DownloadOutcome.produces [temp_m4a vW], Except.error msgOther, false, none⟩

def envOkRemoveFails : VideoEnv := ⟨DownloadOutcome.produces [temp_m4a vW], Except.ok repW, false, some msg403⟩

/-! ### Helper lemmas about the fetcher and the pipeline -/

theorem dl_mem {fs : List String} {out : DownloadOutcome} {u vid audio : String}
    (h : (download_audio_if_not_exists fs out u vid).1 = some audio) :
    audio ∈ (download_audio_if_not_exists fs out u vid).2.1 := by
  unfold download_audio_if_not_exists at h ⊢
  split_ifs at h ⊢ with h1 h2
  · simp_all
  · simp_all
  · cases out with
    | raises => simp_all
    | produces files =>
      simp only at h ⊢
      split_ifs at h ⊢ with h3 h4 <;> simp_all

theorem pnv_fetch_fail {env : VideoEnv} {vid title url : String} {s : St}
    (hdl : (download_audio_if_not_exists s.artifacts env.download url vid).1 = none) :
    process_new_video env vid title url s =
      ({ s with
          artifacts := (download_audio_if_not_exists s.artifacts env.download url vid).2.1 },
       if (download_audio_if_not_exists s.artifacts env.download url vid).2.2
       then [Event.fetchCall vid, Event.downloadRun vid]
       else [Event.fetchCall vid]) := by
  simp only [process_new_video, hdl]

theorem pnv_analysis_err {env : VideoEnv} {vid title url msg audio : String} {s : St}
    (hdl : (download_audio_if_not_exists s.artifacts env.download url vid).1 = some audio)
    (ha : env.analysis = Except.error msg) :
    process_new_video env vid title url s =
      ((classify_error msg
          { s with
            artifacts := (download_audio_if_not_exists s.artifacts env.download url vid).2.1 }).1,
       (if (download_audio_if_not_exists s.artifacts env.download url vid).2.2
        then [Event.fetchCall vid, Event.downloadRun vid]
        else [Event.fetchCall vid]) ++ [Event.analyzeCall vid] ++
         (classify_error msg
           { s with
             artifacts := (download_audio_if_not_exists s.artifacts env.download url vid).2.1 }).2) := by
  simp only [process_new_video, hdl, ha]

theorem pnv_ok_commit {env : VideoEnv} {vid title url text audio : String} {s : St}
    (hdl : (download_audio_if_not_exists s.artifacts env.download url vid).1 = some audio)
    (ha : env.analysis = Except.ok text) (hrm : env.removeErr = none) :
    process_new_video env vid title url s =
      (⟨save_history s.historyFile vid,
        ((download_audio_if_not_exists s.artifacts env.download url vid).2.1).erase audio,
        s.apiLimitHit⟩,
       (if (download_audio_if_not_exists s.artifacts env.download url vid).2.2
        then [Event.fetchCall vid, Event.downloadRun vid]
        else [Event.fetchCall vid]) ++ [Event.analyzeCall vid] ++
         send_line env.notifyFails (url ++ "\n\n" ++ text) ++
         [Event.historyAppend vid, Event.artifactRemoved audio]) := by
  have hmem : audio ∈ (download_audio_if_not_exists s.artifacts env.download url vid).2.1 :=
    dl_mem hdl
  simp only [process_new_video, hdl, ha, hrm, hmem, if_true]

theorem pnv_ok_remove_err {env : VideoEnv} {vid title url text audio rmsg : String} {s : St}
    (hdl : (download_audio_if_not_exists s.artifacts env.download url vid).1 = some audio)
    (ha : env.analysis = Except.ok text) (hrm : env.removeErr = some rmsg) :
    process_new_video env vid title url s =
      ((classify_error rmsg
         ⟨save_history s.historyFile vid,
          (download_audio_if_not_exists s.artifacts env.download url vid).2.1,
          s.apiLimitHit⟩).1,
       (if (download_audio_if_not_exists s.artifacts env.download url vid).2.2
        then [Event.fetchCall vid, Event.downloadRun vid]
        else [Event.fetchCall vid]) ++ [Event.analyzeCall vid] ++
         send_line env.notifyFails (url ++ "\n\n" ++ text) ++
         [Event.historyAppend vid] ++
         (classify_error rmsg
           ⟨save_history s.historyFile vid,
            (download_audio_if_not_exists s.artifacts env.download url vid).2.1,
            s.apiLimitHit⟩).2) := by
  have hmem : audio ∈ (download_audio_if_not_exists s.artifacts env.download url vid).2.1 :=
    dl_mem hdl
  simp only [process_new_video, hdl, ha, hrm, hmem, if_true]

theorem classify_flag (msg : String) (s : St) :
    ((classify_error msg s).1.apiLimitHit = (s.apiLimitHit || isRateLimitError msg))
    ∧ (Event.cooldownSignal ∈ (classify_error msg s).2 ↔ isRateLimitError msg = true) := by
  unfold classify_error
  cases h : isRateLimitError msg <;> simp [h]

theorem pnv_flag (env : VideoEnv) (vid title url : String) (s : St) :
    ((process_new_video env vid title url s).1.apiLimitHit = true)
      ↔ (s.apiLimitHit = true ∨
          Event.cooldownSignal ∈ (process_new_video env vid title url s).2) := by
  cases hdl : (download_audio_if_not_exists s.artifacts env.download url vid).1 with
  | none =>
    rw [pnv_fetch_fail hdl]
    cases hb : (download_audio_if_not_exists s.artifacts env.download url vid).2.2 <;>
      simp [hb]
  | some audio =>
    cases ha : env.analysis with
    | error msg =>
      rw [pnv_analysis_err hdl ha]
      cases hrl : isRateLimitError msg <;>
        cases hb : (download_audio_if_not_exists s.artifacts env.download url vid).2.2 <;>
          simp [classify_error, hrl, hb]
    | ok text =>
      cases hrm : env.removeErr with
      | none =>
        rw [pnv_ok_commit hdl ha hrm]
        cases hnf : env.notifyFails <;>
          cases hb : (download_audio_if_not_exists s.artifacts env.download url vid).2.2 <;>
            simp [send_line, hnf, hb]
      | some rmsg =>
        rw [pnv_ok_remove_err hdl ha hrm]
        cases hrl : isRateLimitError rmsg <;>
          cases hnf : env.notifyFails <;>
            cases hb : (download_audio_if_not_exists s.artifacts env.download url vid).2.2 <;>
              simp [classify_error, send_line, hrl, hnf, hb]

theorem handle_flag (history : List String) (c : ChannelEnv) (s : St) :
    ((handle_channel history c s).1.apiLimitHit = true)
      ↔ (s.apiLimitHit = true ∨
          Event.cooldownSignal ∈ (handle_channel history c s).2) := by
  obtain ⟨⟨v, vt, vu⟩, venv⟩ := c
  cases v with
  | none => simp [handle_channel]
  | some vid =>
    cases ht : strTruthy vid with
    | false => simp [handle_channel, ht]
    | true =>
      by_cases hm : vid ∈ history
      · simp [handle_channel, ht, hm]
      · simp only [handle_channel, ht, if_true, hm, if_false]
        exact pnv_flag venv vid (vt.getD emptyStr) (vu.getD emptyStr) s

theorem run_channels_flag (history : List String) (cs : List ChannelEnv) :
    ∀ s : St, ((run_channels history cs s).1.apiLimitHit = true)
      ↔ (s.apiLimitHit = true ∨
          Event.cooldownSignal ∈ (run_channels history cs s).2) := by
  induction cs with
  | nil => intro s; simp [run_channels]
  | cons c cs ih =>
    intro s
    simp only [run_channels]
    rw [ih, handle_flag]
    simp [List.mem_append, or_assoc]

theorem firstQualifying_eq_find (l : List (Option VideoEntry)) :
    firstQualifying l =
      match l.find? entryQualifies with
      | some (some ⟨some v, some t⟩) => some (v, t)
      | _ => none := by
  induction l with
  | nil => rfl
  | cons oe rest ih =>
    cases oe with
    | none =>
      rw [List.find?_cons_of_neg _ (by simp [entryQualifies])]
      simpa [firstQualifying] using ih
    | some e =>
      obtain ⟨oi, ot⟩ := e
      cases oi with
      | none =>
        rw [List.find?_cons_of_neg _ (by simp [entryQualifies])]
        simpa [firstQualifying] using ih
      | some vid =>
        cases ot with
        | none =>
          rw [List.find?_cons_of_neg _ (by simp [entryQualifies])]
          simpa [firstQualifying] using ih
        | some t =>
          cases hq : (strTruthy vid && !(pyStartsWith vid litUC) && strTruthy t) with
          | true =>
            rw [List.find?_cons_of_pos _ (by simp [entryQualifies, hq])]
            simp [firstQualifying, hq]
          | false =>
            rw [List.find?_cons_of_neg _ (by simp [entryQualifies, hq])]
            simpa [firstQualifying, hq] using ih

theorem glv_ok (entries : List (Option VideoEntry)) :
    get_latest_video (Except.ok (some entries)) =
      match entries.find? entryQualifies with
      | some (some ⟨some v, some t⟩) => (some v, some t, some (watchUrl ++ v))
      | _ => (none, none, none) := by
  simp only [get_latest_video]
  rw [firstQualifying_eq_find]
  cases he : entries.isEmpty with
  | true =>
    have hnil : entries = [] := by simpa using he
    subst hnil; rfl
  | false =>
    simp only [he, Bool.false_eq_true, if_false]
    cases hf : entries.find? entryQualifies with
    | none => rfl
    | some oe =>
      cases oe with
      | none => rfl
      | some e =>
        obtain ⟨oi, ot⟩ := e
        cases oi <;> cases ot <;> rfl

/-! ### Claim theorems -/

/-- Claim C9: `load_history` returns the empty set when the backing file
does not exist, rather than raising; when the file exists it returns the
set of its stripped lines, so a previously appended identifier without
surrounding whitespace is a member, and an append preserves all existing
members. -/
theorem claim_C9 :
    load_history none = []
    ∧ (∀ (lines : List String) (x : String),
        x ∈ load_history (some lines) ↔ ∃ l ∈ lines, pyStrip l = x)
    ∧ (∀ (f : Option (List String)) (vid : String),
        pyStrip vid = vid → vid ∈ load_history (save_history f vid))
    ∧ (∀ (f : Option (List String)) (vid x : String),
        x ∈ load_history f → x ∈ load_history (save_history f vid)) := by
  refine ⟨rfl, ?_, ?_, ?_⟩
  · intro lines x
    simp [load_history, List.mem_map]
  · intro f vid h
    simp only [load_history, save_history, List.mem_map]
    exact ⟨vid, by simp, h⟩
  · intro f vid x hx
    cases f with
    | none => simp [load_history] at hx
    | some lines =>
      simp only [load_history, save_history, List.mem_map] at hx ⊢
      obtain ⟨l, hl, hlx⟩ := hx
      exact ⟨l, by simp [hl], hlx⟩

/-- Witness for C9: a concrete identifier appended to an absent file is a
member of the loaded history. -/
theorem claim_C9_witness :
    (pyStrip vW = vW) ∧ vW ∈ load_history (save_history none vW) :=
  ⟨by decide, claim_C9.2.2.1 none vW (by decide)⟩

/-- Claim C10: the channel scanner inspects only the first
`playlistEnd = 5` playlist entries and returns, for the first entry with
a truthy identifier not starting with `UC` and a truthy title, the
triple `(id, title, watch url ++ id)`; when no entry qualifies, when the
info dict lacks entries, or when extraction raises, it returns
`(none, none, none)` instead of propagating an exception. -/
theorem claim_C10 (playlist : List (Option VideoEntry)) :
    (scan_channel playlist =
      match (playlist.take playlistEnd).find? entryQualifies with
      | some (some ⟨some v, some t⟩) => (some v, some t, some (watchUrl ++ v))
      | _ => (none, none, none))
    ∧ get_latest_video (Except.error ()) = (none, none, none)
    ∧ get_latest_video (Except.ok none) = (none, none, none) :=
  ⟨glv_ok (extract_flat playlist), rfl, rfl⟩

/-- Claim C7: the media fetcher returns an already-present artifact
(`.m4a` preferred, then `.webm`) without attempting a download; only
when neither file exists is a download attempted, after which the
produced path is returned, or `none` when the download raised or left no
recognizable file. -/
theorem claim_C7 (fs : List String) (out : DownloadOutcome) (u vid : String) :
    (temp_m4a vid ∈ fs →
      download_audio_if_not_exists fs out u vid = (some (temp_m4a vid), fs, false))
    ∧ (temp_m4a vid ∉ fs → temp_webm vid ∈ fs →
      download_audio_if_not_exists fs out u vid = (some (temp_webm vid), fs, false))
    ∧ (temp_m4a vid ∉ fs → temp_webm vid ∉ fs →
      (download_audio_if_not_exists fs out u vid).2.2 = true
      ∧ (out = DownloadOutcome.raises →
          download_audio_if_not_exists fs out u vid = (none, fs, true))
      ∧ (∀ files, out = DownloadOutcome.produces files →
          download_audio_if_not_exists fs out u vid =
            (if temp_m4a vid ∈ fs ++ files then some (temp_m4a vid)
             else if temp_webm vid ∈ fs ++ files then some (temp_webm vid)
             else none, fs ++ files, true))) := by
  refine ⟨?_, ?_, ?_⟩
  · intro h1
    simp [download_audio_if_not_exists, h1]
  · intro h1 h2
    simp [download_audio_if_not_exists, h1, h2]
  · intro h1 h2
    refine ⟨?_, ?_, ?_⟩
    · cases out with
      | raises => simp [download_audio_if_not_exists, h1, h2]
      | produces files =>
        simp only [download_audio_if_not_exists, h1, h2, if_false]
        split_ifs <;> rfl
    · rintro rfl
      simp [download_audio_if_not_exists, h1, h2]
    · rintro files rfl
      simp only [download_audio_if_not_exists, h1, h2, if_false]
      split_ifs <;> rfl

/-- Witness for C7: with the artifact already on disk the fetcher
returns it unchanged and performs no download. -/
theorem claim_C7_witness :
    (temp_m4a vW ∈ [temp_m4a vW])
    ∧ download_audio_if_not_exists [temp_m4a vW] DownloadOutcome.raises uW vW
        = (some (temp_m4a vW), [temp_m4a vW], false) :=
  ⟨by decide, (claim_C7 [temp_m4a vW] DownloadOutcome.raises uW vW).1 (by decide)⟩

/-- Claim C4: a scanned video whose identifier is already in the loaded
history set causes no fetch, analysis, notification or history write:
the state is unchanged and only the skip is logged. -/
theorem claim_C4 (history : List String) (c : ChannelEnv) (s : St)
    (vid : String) (vt vu : Option String)
    (hscan : c.scan = (some vid, vt, vu))
    (htr : strTruthy vid = true)
    (hmem : vid ∈ history) :
    handle_channel history c s = (s, [Event.skipLogged vid]) := by
  obtain ⟨scan, venv⟩ := c
  cases hscan
  simp [handle_channel, htr, hmem]

/-- Witness for C4: a concrete already-seen video is only skip-logged. -/
theorem claim_C4_witness :
    ((⟨(some vW, some tW, some uW), envOk⟩ : ChannelEnv).scan
        = (some vW, some tW, some uW))
    ∧ strTruthy vW = true
    ∧ vW ∈ [vW]
    ∧ handle_channel [vW] ⟨(some vW, some tW, some uW), envOk⟩ stEmpty
        = (stEmpty, [Event.skipLogged vW]) :=
  ⟨rfl, by decide, by decide,
    claim_C4 [vW] ⟨(some vW, some tW, some uW), envOk⟩ stEmpty vW (some tW)
      (some uW) rfl (by decide) (by decide)⟩

/-- Claim C3: when the analysis step raises, whatever the failure class,
the identifier is not written to the history file and the downloaded
artifact is not deleted. -/
theorem claim_C3 (env : VideoEnv) (vid title url msg audio : String) (s : St)
    (hdl : (download_audio_if_not_exists s.artifacts env.download url vid).1
      = some audio)
    (ha : env.analysis = Except.error msg) :
    (process_new_video env vid title url s).1.historyFile = s.historyFile
    ∧ audio ∈ (process_new_video env vid title url s).1.artifacts
    ∧ Event.historyAppend vid ∉ (process_new_video env vid title url s).2
    ∧ Event.artifactRemoved audio ∉ (process_new_video env vid title url s).2 := by
  have hmem := dl_mem hdl
  rw [pnv_analysis_err hdl ha]
  cases hrl : isRateLimitError msg <;>
    cases hb : (download_audio_if_not_exists s.artifacts env.download url vid).2.2 <;>
      simp [classify_error, hrl, hb, hmem]

/-- Witness for C3: a concrete failed analysis leaves no history entry
and keeps the artifact. -/
theorem claim_C3_witness :
    ((download_audio_if_not_exists stEmpty.artifacts envErrOther.download uW vW).1
      = some (temp_m4a vW))
    ∧ (envErrOther.analysis = Except.error msgOther)
    ∧ ((process_new_video envErrOther vW tW uW stEmpty).1.historyFile
        = stEmpty.historyFile
      ∧ temp_m4a vW ∈ (process_new_video envErrOther vW tW uW stEmpty).1.artifacts
      ∧ Event.historyAppend vW ∉ (process_new_video envErrOther vW tW uW stEmpty).2
      ∧ Event.artifactRemoved (temp_m4a vW)
          ∉ (process_new_video envErrOther vW tW uW stEmpty).2) :=
  ⟨by decide, rfl,
    claim_C3 envErrOther vW tW uW msgOther (temp_m4a vW) stEmpty (by decide) rfl⟩

/-- Claim C2: when analysis succeeds the identifier is committed whether
or not the notification succeeds: the resulting state equals the state
of a run with a succeeding notifier, and a failing notifier is logged
inside `send_line` while the history append still happens. -/
theorem claim_C2 (env : VideoEnv) (vid title url text audio : String) (s : St)
    (hdl : (download_audio_if_not_exists s.artifacts env.download url vid).1
      = some audio)
    (ha : env.analysis = Except.ok text) :
    vid ∈ historyIds (process_new_video env vid title url s).1
    ∧ (process_new_video env vid title url s).1
        = (process_new_video { env with notifyFails := false } vid title url s).1
    ∧ (env.notifyFails = true →
        Event.notifyFailLogged (url ++ "\n\n" ++ text)
            ∈ (process_new_video env vid title url s).2
        ∧ Event.historyAppend vid ∈ (process_new_video env vid title url s).2) := by
  cases hrm : env.removeErr with
  | none =>
    rw [pnv_ok_commit hdl ha hrm,
      @pnv_ok_commit ⟨env.download, env.analysis, false, none⟩ vid title url
        text audio s hdl ha rfl]
    refine ⟨?_, rfl, ?_⟩
    · simp [historyIds, save_history]
    · intro hnf
      simp [send_line, hnf]
  | some rmsg =>
    rw [pnv_ok_remove_err hdl ha hrm,
      @pnv_ok_remove_err ⟨env.download, env.analysis, false, some rmsg⟩ vid
        title url text audio rmsg s hdl ha rfl]
    refine ⟨?_, rfl, ?_⟩
    · cases hrl : isRateLimitError rmsg <;>
        simp [classify_error, hrl, historyIds, save_history]
    · intro hnf
      cases hrl : isRateLimitError rmsg <;>
        simp [classify_error, hrl, send_line, hnf]

/-- Witness for C2: a concrete run with a failing notifier still commits
and equals the state of the corresponding successful-notifier run. -/
theorem claim_C2_witness :
    ((download_audio_if_not_exists stEmpty.artifacts envOkFailNotify.download uW vW).1
      = some (temp_m4a vW))
    ∧ (envOkFailNotify.analysis = Except.ok repW)
    ∧ (vW ∈ historyIds (process_new_video envOkFailNotify vW tW uW stEmpty).1
      ∧ (process_new_video envOkFailNotify vW tW uW stEmpty).1
          = (process_new_video { envOkFailNotify with notifyFails := false }
              vW tW uW stEmpty).1
      ∧ (envOkFailNotify.notifyFails = true →
          Event.notifyFailLogged (uW ++ "\n\n" ++ repW)
              ∈ (process_new_video envOkFailNotify vW tW uW stEmpty).2
          ∧ Event.historyAppend vW
              ∈ (process_new_video envOkFailNotify vW tW uW stEmpty).2)) :=
  ⟨by decide, rfl,
    claim_C2 envOkFailNotify vW tW uW repW (temp_m4a vW) stEmpty (by decide) rfl⟩

/-- Claim C1 counterexample: a concrete run in which the notification
fails (the push raises inside `send_line`, nothing is delivered) and the
identifier is nevertheless appended to the history store, refuting
`commit gated on notification success`. -/
theorem claim_C1_counterexample :
    Event.notifyFailLogged (uW ++ "\n\n" ++ repW)
        ∈ (process_new_video envOkFailNotify vW tW uW stEmpty).2
    ∧ Event.notifyDelivered (uW ++ "\n\n" ++ repW)
        ∉ (process_new_video envOkFailNotify vW tW uW stEmpty).2
    ∧ vW ∈ historyIds (process_new_video envOkFailNotify vW tW uW stEmpty).1 := by
  decide

/-- Claim C1 (amended): the identifier is appended only after fetch and
analysis succeed — a failed fetch or failed analysis leaves the history
unchanged — and the notification is attempted before the commit, but a
notification failure does not prevent the append. -/
theorem claim_C1 (env : VideoEnv) (vid title url : String) (s : St) :
    ((download_audio_if_not_exists s.artifacts env.download url vid).1 = none →
      (process_new_video env vid title url s).1.historyFile = s.historyFile)
    ∧ (∀ audio msg,
        (download_audio_if_not_exists s.artifacts env.download url vid).1
          = some audio →
        env.analysis = Except.error msg →
        (process_new_video env vid title url s).1.historyFile = s.historyFile)
    ∧ (∀ audio text,
        (download_audio_if_not_exists s.artifacts env.download url vid).1
          = some audio →
        env.analysis = Except.ok text →
        vid ∈ historyIds (process_new_video env vid title url s).1
        ∧ ∃ pre post, (process_new_video env vid title url s).2
            = pre ++ Event.historyAppend vid :: post
          ∧ Event.notifyAttempt (url ++ "\n\n" ++ text) ∈ pre) := by
  refine ⟨?_, ?_, ?_⟩
  · intro hdl
    rw [pnv_fetch_fail hdl]
  · intro audio msg hdl ha
    rw [pnv_analysis_err hdl ha]
    cases hrl : isRateLimitError msg <;> simp [classify_error, hrl]
  · intro audio text hdl ha
    cases hrm : env.removeErr with
    | none =>
      rw [pnv_ok_commit hdl ha hrm]
      refine ⟨by simp [historyIds, save_history], ?_⟩
      refine ⟨(if (download_audio_if_not_exists s.artifacts env.download url vid).2.2
          then [Event.fetchCall vid, Event.downloadRun vid]
          else [Event.fetchCall vid]) ++ [Event.analyzeCall vid] ++
            send_line env.notifyFails (url ++ "\n\n" ++ text),
        [Event.artifactRemoved audio], ?_, ?_⟩
      · simp
      · cases hnf : env.notifyFails <;> simp [send_line, hnf]
    | some rmsg =>
      rw [pnv_ok_remove_err hdl ha hrm]
      refine ⟨?_, ?_⟩
      · cases hrl : isRateLimitError rmsg <;>
          simp [classify_error, hrl, historyIds, save_history]
      · refine ⟨(if (download_audio_if_not_exists s.artifacts env.download url vid).2.2
            then [Event.fetchCall vid, Event.downloadRun vid]
            else [Event.fetchCall vid]) ++ [Event.analyzeCall vid] ++
              send_line env.notifyFails (url ++ "\n\n" ++ text),
          (classify_error rmsg
            ⟨save_history s.historyFile vid,
             (download_audio_if_not_exists s.artifacts env.download url vid).2.1,
             s.apiLimitHit⟩).2, ?_, ?_⟩
        · simp
        · cases hnf : env.notifyFails <;> simp [send_line, hnf]

/-- Witness for C1 (amended): the successful-fetch, successful-analysis,
failing-notification run commits, with the notification attempt strictly
before the history append in the trace. -/
theorem claim_C1_witness :
    ((download_audio_if_not_exists stEmpty.artifacts envOkFailNotify.download uW vW).1
      = some (temp_m4a vW))
    ∧ (envOkFailNotify.analysis = Except.ok repW)
    ∧ (vW ∈ historyIds (process_new_video envOkFailNotify vW tW uW stEmpty).1
      ∧ ∃ pre post, (process_new_video envOkFailNotify vW tW uW stEmpty).2
          = pre ++ Event.historyAppend vW :: post
        ∧ Event.notifyAttempt (uW ++ "\n\n" ++ repW) ∈ pre) :=
  ⟨by decide, rfl,
    (claim_C1 envOkFailNotify vW tW uW stEmpty).2.2 (temp_m4a vW) repW
      (by decide) rfl⟩

/-- Claim C5 counterexample: the except handler also catches an error
raised by the artifact delete step, which runs after the history append;
with a `403` signature in its text the cooldown flag is set even though
the video has already been marked done, refuting `the video is not
marked done` for that error. -/
theorem claim_C5_counterexample :
    Event.errorLogged msg403 ∈ (process_new_video envOkRemoveFails vW tW uW stEmpty).2
    ∧ Event.cooldownSignal ∈ (process_new_video envOkRemoveFails vW tW uW stEmpty).2
    ∧ (process_new_video envOkRemoveFails vW tW uW stEmpty).1.apiLimitHit = true
    ∧ vW ∈ historyIds (process_new_video envOkRemoveFails vW tW uW stEmpty).1 := by
  decide

/-- Claim C5 (amended): every error caught by the per-video handler is
classified as rate/quota exhaustion exactly when its text contains
`429`, `ResourceExhausted` or `403`, and in that case the cooldown flag
is set while any other error leaves the flag unchanged; for an analysis
error the video is not marked done and the artifact is preserved,
whereas an error from the delete step is classified the same way but the
identifier is already committed (and the artifact survives). -/
theorem claim_C5 (env : VideoEnv) (vid title url audio : String) (s : St)
    (hdl : (download_audio_if_not_exists s.artifacts env.download url vid).1
      = some audio) :
    (∀ m : String, isRateLimitError m
      = (strContains m lit429 || strContains m litResourceExhausted ||
          strContains m lit403))
    ∧ (∀ msg, env.analysis = Except.error msg →
        (process_new_video env vid title url s).1.apiLimitHit
          = (s.apiLimitHit || isRateLimitError msg)
        ∧ (process_new_video env vid title url s).1.historyFile = s.historyFile
        ∧ audio ∈ (process_new_video env vid title url s).1.artifacts)
    ∧ (∀ text rmsg, env.analysis = Except.ok text →
        env.removeErr = some rmsg →
        (process_new_video env vid title url s).1.apiLimitHit
          = (s.apiLimitHit || isRateLimitError rmsg)
        ∧ vid ∈ historyIds (process_new_video env vid title url s).1
        ∧ audio ∈ (process_new_video env vid title url s).1.artifacts) := by
  have hmem := dl_mem hdl
  refine ⟨fun m => rfl, ?_, ?_⟩
  · intro msg ha
    rw [pnv_analysis_err hdl ha]
    cases hrl : isRateLimitError msg <;> simp [classify_error, hrl, hmem]
  · intro text rmsg ha hrm
    rw [pnv_ok_remove_err hdl ha hrm]
    cases hrl : isRateLimitError rmsg <;>
      simp [classify_error, hrl, hmem, historyIds, save_history]

/-- Witness for C5 (amended): a concrete quota-style analysis error sets
the flag, leaves history unchanged and keeps the artifact. -/
theorem claim_C5_witness :
    ((download_audio_if_not_exists stEmpty.artifacts envErr429.download uW vW).1
      = some (temp_m4a vW))
    ∧ (envErr429.analysis = Except.error msg429)
    ∧ ((process_new_video envErr429 vW tW uW stEmpty).1.apiLimitHit
        = (stEmpty.apiLimitHit || isRateLimitError msg429)
      ∧ (process_new_video envErr429 vW tW uW stEmpty).1.historyFile
          = stEmpty.historyFile
      ∧ temp_m4a vW ∈ (process_new_video envErr429 vW tW uW stEmpty).1.artifacts) :=
  ⟨by decide, rfl,
    (claim_C5 envErr429 vW tW uW (temp_m4a vW) stEmpty (by decide)).2.1
      msg429 rfl⟩

/-- Claim C8: in a successful run the commit appends the identifier
first and deletes the artifact second (the two events are adjacent in
that order); a failing delete does not undo or prevent the append — the
identifier stays committed, the pipeline returns normally and the
artifact survives. -/
theorem claim_C8 (env : VideoEnv) (vid title url text audio : String) (s : St)
    (hdl : (download_audio_if_not_exists s.artifacts env.download url vid).1
      = some audio)
    (ha : env.analysis = Except.ok text) :
    vid ∈ historyIds (process_new_video env vid title url s).1
    ∧ (env.removeErr = none →
        (∃ pre, (process_new_video env vid title url s).2
          = pre ++ [Event.historyAppend vid, Event.artifactRemoved audio])
        ∧ (process_new_video env vid title url s).1.artifacts
          = ((download_audio_if_not_exists s.artifacts env.download url vid).2.1).erase
              audio)
    ∧ (∀ rmsg, env.removeErr = some rmsg →
        vid ∈ historyIds (process_new_video env vid title url s).1
        ∧ Event.historyAppend vid ∈ (process_new_video env vid title url s).2
        ∧ Event.artifactRemoved audio ∉ (process_new_video env vid title url s).2
        ∧ audio ∈ (process_new_video env vid title url s).1.artifacts) := by
  have hmem := dl_mem hdl
  refine ⟨?_, ?_, ?_⟩
  · cases hrm : env.removeErr with
    | none =>
      rw [pnv_ok_commit hdl ha hrm]
      simp [historyIds, save_history]
    | some rmsg =>
      rw [pnv_ok_remove_err hdl ha hrm]
      cases hrl : isRateLimitError rmsg <;>
        simp [classify_error, hrl, historyIds, save_history]
  · intro hrm
    rw [pnv_ok_commit hdl ha hrm]
    refine ⟨⟨(if (download_audio_if_not_exists s.artifacts env.download url vid).2.2
        then [Event.fetchCall vid, Event.downloadRun vid]
        else [Event.fetchCall vid]) ++ [Event.analyzeCall vid] ++
          send_line env.notifyFails (url ++ "\n\n" ++ text), by simp⟩, rfl⟩
  · intro rmsg hrm
    rw [pnv_ok_remove_err hdl ha hrm]
    cases hrl : isRateLimitError rmsg <;>
      cases hnf : env.notifyFails <;>
        cases hb : (download_audio_if_not_exists s.artifacts env.download url vid).2.2 <;>
          simp [classify_error, send_line, hrl, hnf, hb, hmem, historyIds,
            save_history]

/-- Witness for C8: in the concrete successful run the append/delete
pair closes the trace in order and the artifact is erased. -/
theorem claim_C8_witness :
    ((download_audio_if_not_exists stEmpty.artifacts envOk.download uW vW).1
      = some (temp_m4a vW))
    ∧ (envOk.analysis = Except.ok repW)
    ∧ (vW ∈ historyIds (process_new_video envOk vW tW uW stEmpty).1
      ∧ (envOk.removeErr = none →
          (∃ pre, (process_new_video envOk vW tW uW stEmpty).2
            = pre ++ [Event.historyAppend vW, Event.artifactRemoved (temp_m4a vW)])
          ∧ (process_new_video envOk vW tW uW stEmpty).1.artifacts
            = ((download_audio_if_not_exists stEmpty.artifacts envOk.download uW
                vW).2.1).erase (temp_m4a vW))) :=
  ⟨by decide, rfl,
    ⟨(claim_C8 envOk vW tW uW repW (temp_m4a vW) stEmpty (by decide) rfl).1,
     (claim_C8 envOk vW tW uW repW (temp_m4a vW) stEmpty (by decide) rfl).2.1⟩⟩

/-- Claim C6: one outer iteration sleeps the long cooldown interval of
900 seconds exactly when a rate-limit condition was signalled during the
iteration and the short 60 second polling interval otherwise, and the
cooldown flag is reset at the start of each iteration, so the incoming
flag value is irrelevant. -/
theorem claim_C6 (channels : List ChannelEnv) (s : St) :
    ((run_iteration channels s).2.1 = cooldownSeconds ↔
      Event.cooldownSignal ∈ (run_iteration channels s).2.2)
    ∧ ((run_iteration channels s).2.1 = cooldownSeconds ∨
      (run_iteration channels s).2.1 = pollSeconds)
    ∧ (∀ b : Bool, run_iteration channels { s with apiLimitHit := b }
        = run_iteration channels { s with apiLimitHit := false })
    ∧ cooldownSeconds = 900 ∧ pollSeconds = 60 := by
  have hmain := run_channels_flag (load_history s.historyFile) channels
    { s with apiLimitHit := false }
  refine ⟨?_, ?_, fun b => rfl, rfl, rfl⟩
  · simp only [run_iteration]
    cases hfl : (run_channels (load_history s.historyFile) channels
        { s with apiLimitHit := false }).1.apiLimitHit with
    | false =>
      rw [hfl] at hmain
      simp only [Bool.false_eq_true, false_iff, false_or] at hmain
      simp [hfl, hmain, cooldownSeconds, pollSeconds]
    | true =>
      rw [hfl] at hmain
      simp only [true_iff, Bool.false_eq_true, false_or] at hmain
      simp [hfl, hmain, cooldownSeconds, pollSeconds]
  · simp only [run_iteration]
    cases hfl : (run_channels (load_history s.historyFile) channels
        { s with apiLimitHit := false }).1.apiLimitHit <;>
      simp [hfl, cooldownSeconds, pollSeconds]
